import Mathlib

/-!
Verification of the CoGScale4Cell measurement pipeline (`Bilancia4_10.ino`).

The sketch's `float`/`double` arithmetic is embedded exactly over `ℚ`;
Arduino's `round` macro (half away from zero, truncating cast) is modelled by
`ardRound`.  The `int16_t` CoG outputs are modelled as `ℤ` (all values handled
by the claims are far inside the `int16_t` range).  Sensor readings are the
environment's input: each acquisition step takes, per channel, the
offset-corrected averaged raw reading (the HX711 `get_value` result), and the
channel contract `get_units = value / scale` from the spec's Channel
Abstraction converts it to kilograms.
-/

namespace CoGScale

/-- Arduino `round(x)`: `(long)(x + 0.5)` for `x ≥ 0`, `(long)(x - 0.5)` for
`x < 0`; the cast truncates toward zero, so the result is
round-half-away-from-zero. -/
def ardRound (x : ℚ) : ℤ :=
  if 0 ≤ x then ⌊x + 1/2⌋ else ⌈x - 1/2⌉

/-- Source `const float BASE_WIDTH = 270.0` (mm, X axis). -/
def BASE_WIDTH : ℚ := 270

/-- Source `const float BASE_LENGTH = 250.0` (mm, Y axis). -/
def BASE_LENGTH : ℚ := 250

/-- Source `const float WING_PEG_DIST = 120.0` (mm). -/
def WING_PEG_DIST : ℚ := 120

/-- Source `const uint8_t SMOOTHING_SAMPLES = 5`. -/
abbrev SMOOTHING_SAMPLES : ℕ := 5

/-- Source `const float CORRECTION_FACTOR = 4.71192` (local constant in
`updateWeightData`). -/
def CORRECTION_FACTOR : ℚ := 4.71192

/-- Rounding to 0.01 kg: `roundWeightToDecagram(w) = round(w * 100) / 100.0`. -/
def roundWeightToDecagram (weight : ℚ) : ℚ :=
  (ardRound (weight * 100) : ℚ) / 100

/-- Rounding to whole millimetres: `roundToMillimeter(v) = round(v)`. -/
def roundToMillimeter (value : ℚ) : ℤ :=
  ardRound value

/-- Smoothing filter `smoothValue(newValue, samples, index)`: overwrite `samples[index]` with
`newValue`, return the mean of all `SMOOTHING_SAMPLES` slots.  The C function
mutates the array in place and returns the mean; here it returns both the
updated window and the mean. -/
def smoothValue (newValue : ℚ) (samples : Fin SMOOTHING_SAMPLES → ℚ)
    (index : Fin SMOOTHING_SAMPLES) : (Fin SMOOTHING_SAMPLES → ℚ) × ℚ :=
  (Function.update samples index newValue,
   (∑ i, Function.update samples index newValue i) / (SMOOTHING_SAMPLES : ℚ))

/-- Channel contract (spec §3 / HX711 `get_units`): a channel's reported
weight is the offset-corrected reading divided by its scale factor. -/
def get_units (value scale : ℚ) : ℚ := value / scale

/-- The mutable global state of the sketch that the claims touch: the four
calibration factors (kept in sync with the HX711 `SCALE` by `set_scale`), the
four smoothing windows with their shared index, and the measurement
outputs. -/
structure SystemState where
  calibration_factor1 : ℚ
  calibration_factor2 : ℚ
  calibration_factor3 : ℚ
  calibration_factor4 : ℚ
  weight1Samples : Fin SMOOTHING_SAMPLES → ℚ
  weight2Samples : Fin SMOOTHING_SAMPLES → ℚ
  weight3Samples : Fin SMOOTHING_SAMPLES → ℚ
  weight4Samples : Fin SMOOTHING_SAMPLES → ℚ
  sampleIndex : Fin SMOOTHING_SAMPLES
  totalWeight : ℚ
  cogX : ℤ
  cogY : ℤ
  wingCogX : ℤ
  lateralCogDiff : ℤ
  cogPercentage : ℤ

/-- One channel's contribution to a cycle: `get_units(2)`, the correction
multiplier, smoothing, and rounding to 0.01 kg (lines 295-313). -/
def cycleWeight (CF factor : ℚ) (samples : Fin SMOOTHING_SAMPLES → ℚ)
    (idx : Fin SMOOTHING_SAMPLES) (reading : ℚ) : ℚ :=
  roundWeightToDecagram (smoothValue (get_units reading factor * CF) samples idx).2

/-- The smoothing window of one channel after a cycle's `smoothValue` call
(the in-place array mutation of lines 310-313). -/
def cycleSamples (CF factor : ℚ) (samples : Fin SMOOTHING_SAMPLES → ℚ)
    (idx : Fin SMOOTHING_SAMPLES) (reading : ℚ) : Fin SMOOTHING_SAMPLES → ℚ :=
  (smoothValue (get_units reading factor * CF) samples idx).1

/-- The local `totalWeight = weight1 + weight2 + weight3 + weight4` of a cycle
(line 316). -/
def cycleTotalWeight (CF : ℚ) (st : SystemState) (r1 r2 r3 r4 : ℚ) : ℚ :=
  cycleWeight CF st.calibration_factor1 st.weight1Samples st.sampleIndex r1 +
  cycleWeight CF st.calibration_factor2 st.weight2Samples st.sampleIndex r2 +
  cycleWeight CF st.calibration_factor3 st.weight3Samples st.sampleIndex r3 +
  cycleWeight CF st.calibration_factor4 st.weight4Samples st.sampleIndex r4

/-- The cycle's `lateralCogDiff = roundToMillimeter(cogX_centered)` with
`cogX_centered = (W1*X1 + W2*X2 + W3*X3 + W4*X4) / totalWeight` and
`X = ∓BASE_WIDTH/2` (left negative, right positive) (lines 343-362). -/
def cycleLateralCogDiff (CF BW : ℚ) (st : SystemState) (r1 r2 r3 r4 : ℚ) : ℤ :=
  roundToMillimeter
    ((cycleWeight CF st.calibration_factor1 st.weight1Samples st.sampleIndex r1 * (-BW / 2) +
      cycleWeight CF st.calibration_factor2 st.weight2Samples st.sampleIndex r2 * (BW / 2) +
      cycleWeight CF st.calibration_factor3 st.weight3Samples st.sampleIndex r3 * (-BW / 2) +
      cycleWeight CF st.calibration_factor4 st.weight4Samples st.sampleIndex r4 * (BW / 2)) /
      cycleTotalWeight CF st r1 r2 r3 r4)

/-- The cycle's `cogY = roundToMillimeter(cogY_fromLE)` with
`cogY_fromLE = (W1*Y1 + W2*Y2 + W3*Y3 + W4*Y4) / totalWeight`, `Y = 0` for the
front pair and `Y = BASE_LENGTH` for the rear pair (lines 351-367). -/
def cycleCogY (CF BL : ℚ) (st : SystemState) (r1 r2 r3 r4 : ℚ) : ℤ :=
  roundToMillimeter
    ((cycleWeight CF st.calibration_factor1 st.weight1Samples st.sampleIndex r1 * 0 +
      cycleWeight CF st.calibration_factor2 st.weight2Samples st.sampleIndex r2 * 0 +
      cycleWeight CF st.calibration_factor3 st.weight3Samples st.sampleIndex r3 * BL +
      cycleWeight CF st.calibration_factor4 st.weight4Samples st.sampleIndex r4 * BL) /
      cycleTotalWeight CF st r1 r2 r3 r4)

/-- The acquisition cycle `updateWeightData` (lines 293-394), with the compile-time configuration
constants (correction multiplier and geometry) as explicit parameters so that
claims about other configured values can be stated.  `r1..r4` are the four
channels' offset-corrected averaged raw readings for this cycle (the input of
`get_units(2)`).  The source computes the weights, total, and CoG values in
locals; the `cycle*` definitions above name those locals. -/
def updateWeightDataGen (CF BW BL W : ℚ) (st : SystemState)
    (r1 r2 r3 r4 : ℚ) : SystemState :=
  if 0.01 < cycleTotalWeight CF st r1 r2 r3 r4 then
    { st with
      weight1Samples := cycleSamples CF st.calibration_factor1 st.weight1Samples st.sampleIndex r1
      weight2Samples := cycleSamples CF st.calibration_factor2 st.weight2Samples st.sampleIndex r2
      weight3Samples := cycleSamples CF st.calibration_factor3 st.weight3Samples st.sampleIndex r3
      weight4Samples := cycleSamples CF st.calibration_factor4 st.weight4Samples st.sampleIndex r4
      totalWeight := cycleTotalWeight CF st r1 r2 r3 r4
      cogY := cycleCogY CF BL st r1 r2 r3 r4
      wingCogX := cycleCogY CF BL st r1 r2 r3 r4
      lateralCogDiff := cycleLateralCogDiff CF BW st r1 r2 r3 r4
      cogPercentage :=
        if 0 < W then ardRound ((cycleCogY CF BL st r1 r2 r3 r4 : ℚ) / W * 100)
        else st.cogPercentage }
  else
    { st with
      weight1Samples := cycleSamples CF st.calibration_factor1 st.weight1Samples st.sampleIndex r1
      weight2Samples := cycleSamples CF st.calibration_factor2 st.weight2Samples st.sampleIndex r2
      weight3Samples := cycleSamples CF st.calibration_factor3 st.weight3Samples st.sampleIndex r3
      weight4Samples := cycleSamples CF st.calibration_factor4 st.weight4Samples st.sampleIndex r4
      totalWeight := cycleTotalWeight CF st r1 r2 r3 r4
      cogX := 0, cogY := 0, wingCogX := 0
      lateralCogDiff := 0, cogPercentage := 0 }

/-- The acquisition cycle at the configuration compiled into the sketch. -/
def updateWeightData (st : SystemState) (r1 r2 r3 r4 : ℚ) : SystemState :=
  updateWeightDataGen CORRECTION_FACTOR BASE_WIDTH BASE_LENGTH WING_PEG_DIST st r1 r2 r3 r4

/-- One continuous-mode iteration of `loop`: `updateWeightData` followed by
`sampleIndex = (sampleIndex + 1) % SMOOTHING_SAMPLES` (line 286). -/
def loopCycle (st : SystemState) (r1 r2 r3 r4 : ℚ) : SystemState :=
  let st1 := updateWeightData st r1 r2 r3 r4
  { st1 with sampleIndex := st1.sampleIndex + 1 }

/-- Tare `tareScales`: tares the four cells (the hardware offsets are outside this
state; readings are already offset-corrected inputs) and zeroes all four
smoothing windows (lines 1007-1012). -/
def tareScales (st : SystemState) : SystemState :=
  { st with
    weight1Samples := fun _ => 0, weight2Samples := fun _ => 0
    weight3Samples := fun _ => 0, weight4Samples := fun _ => 0 }

/-- The Computing step of `calibrateCellsViaSerial` (lines 1190-1203):
`calibration_factor_i = (raw_i / rawSum) * knownWeight * 4.0`, each
immediately applied to its cell via `set_scale`.  The source performs no check
on `rawSum`; accordingly this definition has no guard either (in the C float
semantics a zero `rawSum` yields ±inf/NaN factors; over `ℚ` division by zero
yields `0` — in both semantics the four factors are overwritten). -/
def calibrateComputing (st : SystemState) (raw1 raw2 raw3 raw4 knownWeight : ℚ) :
    SystemState :=
  let rawSum := raw1 + raw2 + raw3 + raw4
  { st with
    calibration_factor1 := raw1 / rawSum * knownWeight * 4
    calibration_factor2 := raw2 / rawSum * knownWeight * 4
    calibration_factor3 := raw3 / rawSum * knownWeight * 4
    calibration_factor4 := raw4 / rawSum * knownWeight * 4 }

/-- Serial responses of the `cf,<value>` command path. -/
inductive CfResponse where
  /-- Reply "New correction factor set: <v>" plus the copy/recompile instructions. -/
  | factorLogged : ℚ → CfResponse
  /-- Reply "Invalid correction factor (must be > 0)". -/
  | invalidFactor : CfResponse
deriving DecidableEq

/-- Command handler `setCorrectionFactor` (lines 1350-1358): prints the new factor and the
instruction to hardcode it; mutates no state at all. -/
def setCorrectionFactor (newFactor : ℚ) : CfResponse :=
  CfResponse.factorLogged newFactor

/-- The `cf,<value>` branch of `checkSerialCommands` (lines 1438-1448), after
the serial line has been tokenized (tokenizing is out of scope per spec §1):
`value > 0` calls `setCorrectionFactor`, otherwise the validation failure is
reported.  Neither branch touches the system state. -/
def checkSerialCommands_cf (st : SystemState) (value : ℚ) : SystemState × CfResponse :=
  if 0 < value then (st, setCorrectionFactor value)
  else (st, CfResponse.invalidFactor)

/-- Serial responses of the `c<n>,<value>` command path. -/
inductive CellCalResponse where
  /-- Reply "Calibration factor for cell <n> set to: <v>". -/
  | factorSet : ℕ → ℚ → CellCalResponse
  /-- Reply "Invalid calibration value". -/
  | invalidValue : CellCalResponse
  /-- Reply "Invalid cell number (must be 1-4)". -/
  | invalidCellNumber : CellCalResponse
deriving DecidableEq

/-- The `c<n>,<value>` branch of `checkSerialCommands` (lines 1450-1488):
cell number in 1..4 and nonzero value set that cell's factor via
`set_scale`; otherwise a validation failure is reported. -/
def checkSerialCommands_cellCal (st : SystemState) (cellNumber : ℕ) (value : ℚ) :
    SystemState × CellCalResponse :=
  if 1 ≤ cellNumber ∧ cellNumber ≤ 4 then
    if value ≠ 0 then
      (match cellNumber with
        | 1 => { st with calibration_factor1 := value }
        | 2 => { st with calibration_factor2 := value }
        | 3 => { st with calibration_factor3 := value }
        | _ => { st with calibration_factor4 := value },
       CellCalResponse.factorSet cellNumber value)
    else (st, CellCalResponse.invalidValue)
  else (st, CellCalResponse.invalidCellNumber)

/-- The numeric content of one `printSerialData` measurement report
(lines 1496-1539). -/
structure SerialReport where
  reportTotalWeight : ℚ
  cgX : ℤ
  cgY : ℤ
  wingCg : ℤ
  cgPercent : ℤ
  lateralBalance : ℤ
deriving DecidableEq

/-- Report `printSerialData`: the report simply echoes the measurement globals
("CG X: <cogX> mm from left", etc.). -/
def printSerialData (st : SystemState) : SerialReport :=
  { reportTotalWeight := st.totalWeight
    cgX := st.cogX
    cgY := st.cogY
    wingCg := st.wingCogX
    cgPercent := st.cogPercentage
    lateralBalance := st.lateralCogDiff }

/-- The state after `setup`: compiled-in default calibration factors
(lines 95-98), zero-filled smoothing windows, `sampleIndex = 0`, and all
measurement globals at their initializers (lines 123-135). -/
def initialState : SystemState :=
  { calibration_factor1 := -411979.59
    calibration_factor2 := -237715.98
    calibration_factor3 := -350986.41
    calibration_factor4 := -533862.25
    weight1Samples := fun _ => 0
    weight2Samples := fun _ => 0
    weight3Samples := fun _ => 0
    weight4Samples := fun _ => 0
    sampleIndex := 0
    totalWeight := 0
    cogX := 0
    cogY := 0
    wingCogX := 0
    lateralCogDiff := 0
    cogPercentage := 0 }

/-- The state-mutating operations of the sketch: a continuous-mode loop
iteration, an `updateWeightData` call from the CG-view/lateral-balance
screens (no index advance), tare, the calibration Computing step, and the two
factor-setting serial commands. -/
inductive Step : SystemState → SystemState → Prop where
  | update (st : SystemState) (r1 r2 r3 r4 : ℚ) :
      Step st (loopCycle st r1 r2 r3 r4)
  | updateView (st : SystemState) (r1 r2 r3 r4 : ℚ) :
      Step st (updateWeightData st r1 r2 r3 r4)
  | tare (st : SystemState) :
      Step st (tareScales st)
  | calibrate (st : SystemState) (raw1 raw2 raw3 raw4 knownWeight : ℚ) :
      Step st (calibrateComputing st raw1 raw2 raw3 raw4 knownWeight)
  | cellCal (st : SystemState) (cellNumber : ℕ) (value : ℚ) :
      Step st (checkSerialCommands_cellCal st cellNumber value).1
  | cf (st : SystemState) (value : ℚ) :
      Step st (checkSerialCommands_cf st value).1

/-- States reachable from `setup`'s initial state by the sketch's
operations. -/
inductive Reachable : SystemState → Prop where
  | init : Reachable initialState
  | step {st st' : SystemState} : Reachable st → Step st st' → Reachable st'

/-- One run of the smoothing filter, as driven by `loop`: windows start
zero-filled (startup or tare), the shared index starts at 0 and advances once
per cycle, and each cycle feeds the value `V`.  Returns the window and index
after `k` cycles. -/
def smoothRun (V : ℚ) : ℕ → (Fin SMOOTHING_SAMPLES → ℚ) × Fin SMOOTHING_SAMPLES
  | 0 => (fun _ => 0, 0)
  | k + 1 =>
    let p := smoothRun V k
    ((smoothValue V p.1 p.2).1, p.2 + 1)

/-- The value returned by `smoothValue` at the k-th consecutive update
(k ≥ 1) in a `smoothRun`; 0 before any update. -/
def smoothRunMean (V : ℚ) : ℕ → ℚ
  | 0 => 0
  | k + 1 => (smoothValue V (smoothRun V k).1 (smoothRun V k).2).2

/-- Evaluation of `ardRound` for nonnegative arguments. -/
theorem ardRound_eq_of_nonneg (x : ℚ) (n : ℤ) (h0 : 0 ≤ x)
    (h1 : (n : ℚ) ≤ x + 1/2) (h2 : x + 1/2 < (n : ℚ) + 1) : ardRound x = n := by
  unfold ardRound
  rw [if_pos h0]
  exact Int.floor_eq_iff.mpr ⟨h1, by exact_mod_cast h2⟩

/-- Evaluation of `ardRound` for negative arguments. -/
theorem ardRound_eq_of_neg (x : ℚ) (n : ℤ) (h0 : ¬ 0 ≤ x)
    (h1 : (n : ℚ) - 1 < x - 1/2) (h2 : x - 1/2 ≤ (n : ℚ)) : ardRound x = n := by
  unfold ardRound
  rw [if_neg h0]
  exact Int.ceil_eq_iff.mpr ⟨by exact_mod_cast h1, h2⟩

/-- The sufficient-load branch of a cycle, as one record equation. -/
theorem updateWeightDataGen_pos_eq (CF BW BL W : ℚ) (st : SystemState)
    (r1 r2 r3 r4 : ℚ) (h : 0.01 < cycleTotalWeight CF st r1 r2 r3 r4) :
    updateWeightDataGen CF BW BL W st r1 r2 r3 r4 =
    { st with
      weight1Samples := cycleSamples CF st.calibration_factor1 st.weight1Samples st.sampleIndex r1
      weight2Samples := cycleSamples CF st.calibration_factor2 st.weight2Samples st.sampleIndex r2
      weight3Samples := cycleSamples CF st.calibration_factor3 st.weight3Samples st.sampleIndex r3
      weight4Samples := cycleSamples CF st.calibration_factor4 st.weight4Samples st.sampleIndex r4
      totalWeight := cycleTotalWeight CF st r1 r2 r3 r4
      cogY := cycleCogY CF BL st r1 r2 r3 r4
      wingCogX := cycleCogY CF BL st r1 r2 r3 r4
      lateralCogDiff := cycleLateralCogDiff CF BW st r1 r2 r3 r4
      cogPercentage :=
        if 0 < W then ardRound ((cycleCogY CF BL st r1 r2 r3 r4 : ℚ) / W * 100)
        else st.cogPercentage } := by
  unfold updateWeightDataGen
  rw [if_pos h]

/-- The insufficient-load branch of a cycle, as one record equation. -/
theorem updateWeightDataGen_neg_eq (CF BW BL W : ℚ) (st : SystemState)
    (r1 r2 r3 r4 : ℚ) (h : cycleTotalWeight CF st r1 r2 r3 r4 ≤ 0.01) :
    updateWeightDataGen CF BW BL W st r1 r2 r3 r4 =
    { st with
      weight1Samples := cycleSamples CF st.calibration_factor1 st.weight1Samples st.sampleIndex r1
      weight2Samples := cycleSamples CF st.calibration_factor2 st.weight2Samples st.sampleIndex r2
      weight3Samples := cycleSamples CF st.calibration_factor3 st.weight3Samples st.sampleIndex r3
      weight4Samples := cycleSamples CF st.calibration_factor4 st.weight4Samples st.sampleIndex r4
      totalWeight := cycleTotalWeight CF st r1 r2 r3 r4
      cogX := 0, cogY := 0, wingCogX := 0
      lateralCogDiff := 0, cogPercentage := 0 } := by
  unfold updateWeightDataGen
  rw [if_neg (not_lt.mpr h)]

/-- In both branches the cycle stores the four-channel sum as the total. -/
theorem updateWeightDataGen_totalWeight (CF BW BL W : ℚ) (st : SystemState)
    (r1 r2 r3 r4 : ℚ) :
    (updateWeightDataGen CF BW BL W st r1 r2 r3 r4).totalWeight =
      cycleTotalWeight CF st r1 r2 r3 r4 := by
  rcases lt_or_le (0.01 : ℚ) (cycleTotalWeight CF st r1 r2 r3 r4) with hc | hc
  · rw [updateWeightDataGen_pos_eq CF BW BL W st r1 r2 r3 r4 hc]
  · rw [updateWeightDataGen_neg_eq CF BW BL W st r1 r2 r3 r4 hc]

/-- Claim C1: in every acquisition cycle where the computed total weight is at
most 0.01 kg, all four CoG-derived outputs (lateral offset, longitudinal CoG,
wing CoG, CoG percentage) are zero after the cycle, whatever the prior
state. -/
theorem insufficientLoad_resets_cog (st : SystemState) (r1 r2 r3 r4 : ℚ)
    (h : (updateWeightData st r1 r2 r3 r4).totalWeight ≤ 0.01) :
    (updateWeightData st r1 r2 r3 r4).lateralCogDiff = 0 ∧
    (updateWeightData st r1 r2 r3 r4).cogY = 0 ∧
    (updateWeightData st r1 r2 r3 r4).wingCogX = 0 ∧
    (updateWeightData st r1 r2 r3 r4).cogPercentage = 0 := by
  unfold updateWeightData at h ⊢
  rw [updateWeightDataGen_totalWeight] at h
  rw [updateWeightDataGen_neg_eq CORRECTION_FACTOR BASE_WIDTH BASE_LENGTH WING_PEG_DIST
    st r1 r2 r3 r4 h]
  exact ⟨rfl, rfl, rfl, rfl⟩

/-- Evaluation: a cycle on zero-filled windows fed with reading 0 yields
channel weight 0. -/
theorem cycleWeight_zero (CF factor : ℚ) (idx : Fin SMOOTHING_SAMPLES) :
    cycleWeight CF factor (fun _ => 0) idx 0 = 0 := by
  unfold cycleWeight smoothValue get_units roundWeightToDecagram
  have hsum : (∑ i, Function.update (fun _ => (0 : ℚ)) idx (0 / factor * CF) i) = 0 := by
    apply Finset.sum_eq_zero
    intro i _
    rcases eq_or_ne i idx with hi | hi
    · subst hi; simp [Function.update_same]
    · simp [Function.update_noteq hi]
  rw [hsum]
  norm_num [ardRound_eq_of_nonneg 0 0 (by norm_num) (by norm_num) (by norm_num)]

/-- Witness for C1: the startup state with all-zero readings gives total
weight 0 ≤ 0.01 and zeroed CoG outputs. -/
theorem insufficientLoad_resets_cog_witness :
    (updateWeightData initialState 0 0 0 0).totalWeight ≤ 0.01 ∧
    ((updateWeightData initialState 0 0 0 0).lateralCogDiff = 0 ∧
     (updateWeightData initialState 0 0 0 0).cogY = 0 ∧
     (updateWeightData initialState 0 0 0 0).wingCogX = 0 ∧
     (updateWeightData initialState 0 0 0 0).cogPercentage = 0) := by
  have h : (updateWeightData initialState 0 0 0 0).totalWeight ≤ 0.01 := by
    unfold updateWeightData
    rw [updateWeightDataGen_totalWeight]
    unfold cycleTotalWeight initialState
    rw [cycleWeight_zero, cycleWeight_zero, cycleWeight_zero, cycleWeight_zero]
    norm_num
  exact ⟨h, insufficientLoad_resets_cog initialState 0 0 0 0 h⟩

/-- Sum of a constant window after overwriting one slot. -/
theorem sum_update_const (c v : ℚ) (idx : Fin SMOOTHING_SAMPLES) :
    (∑ i, Function.update (fun _ => c) idx v i) = v + 4 * c := by
  rw [Finset.sum_update_of_mem (Finset.mem_univ idx), Finset.sum_const]
  have hcard : (Finset.univ \ {idx}).card = 4 := by
    rw [Finset.card_sdiff (Finset.subset_univ _)]
    simp
  rw [hcard]
  push_cast [nsmul_eq_mul]
  ring

/-- A cycle's channel weight over a constant window, in closed form. -/
theorem cycleWeight_const (CF factor c : ℚ) (idx : Fin SMOOTHING_SAMPLES) (r : ℚ) :
    cycleWeight CF factor (fun _ => c) idx r =
      roundWeightToDecagram ((r / factor * CF + 4 * c) / 5) := by
  unfold cycleWeight smoothValue get_units
  rw [sum_update_const]
  norm_num

/-- Channel weight of a cycle at correction factor 4.71192, scale factor 1,
zero-filled window, reading 1: 0.94 kg. -/
theorem cycleWeight_one_eval (idx : Fin SMOOTHING_SAMPLES) :
    cycleWeight CORRECTION_FACTOR 1 (fun _ => 0) idx 1 = 94/100 := by
  rw [cycleWeight_const]
  unfold roundWeightToDecagram
  rw [ardRound_eq_of_nonneg ((1 / 1 * CORRECTION_FACTOR + 4 * 0) / 5 * 100) 94
    (by norm_num [CORRECTION_FACTOR]) (by norm_num [CORRECTION_FACTOR])
    (by norm_num [CORRECTION_FACTOR])]
  norm_num

/-- Claim C2: in the Computing step, each channel's new scale factor is
`(raw_samples[i] / sum(raw_samples)) * known_weight_kg * 4.0`, and that is
exactly the factor held by the channel afterwards (the `set_scale` call keeps
the channel's divisor and the global in sync, modelled as the single
`calibration_factor_i` field). -/
theorem calibComputing_factors (st : SystemState) (raw1 raw2 raw3 raw4 knownWeight : ℚ)
    (h : raw1 + raw2 + raw3 + raw4 ≠ 0) :
    (calibrateComputing st raw1 raw2 raw3 raw4 knownWeight).calibration_factor1 =
      raw1 / (raw1 + raw2 + raw3 + raw4) * knownWeight * 4 ∧
    (calibrateComputing st raw1 raw2 raw3 raw4 knownWeight).calibration_factor2 =
      raw2 / (raw1 + raw2 + raw3 + raw4) * knownWeight * 4 ∧
    (calibrateComputing st raw1 raw2 raw3 raw4 knownWeight).calibration_factor3 =
      raw3 / (raw1 + raw2 + raw3 + raw4) * knownWeight * 4 ∧
    (calibrateComputing st raw1 raw2 raw3 raw4 knownWeight).calibration_factor4 =
      raw4 / (raw1 + raw2 + raw3 + raw4) * knownWeight * 4 :=
  ⟨rfl, rfl, rfl, rfl⟩

/-- Witness for C2 at raw samples (1,2,3,4), known weight 2. -/
theorem calibComputing_factors_witness :
    ((1 : ℚ) + 2 + 3 + 4 ≠ 0) ∧
    ((calibrateComputing initialState 1 2 3 4 2).calibration_factor1 =
      1 / (1 + 2 + 3 + 4) * 2 * 4 ∧
     (calibrateComputing initialState 1 2 3 4 2).calibration_factor2 =
      2 / (1 + 2 + 3 + 4) * 2 * 4 ∧
     (calibrateComputing initialState 1 2 3 4 2).calibration_factor3 =
      3 / (1 + 2 + 3 + 4) * 2 * 4 ∧
     (calibrateComputing initialState 1 2 3 4 2).calibration_factor4 =
      4 / (1 + 2 + 3 + 4) * 2 * 4) :=
  ⟨by norm_num, calibComputing_factors initialState 1 2 3 4 2 (by norm_num)⟩

/-- Claim C5 (evidence): the Computing step has no guard on a zero raw-sum
session.  At the failing input (all four raw samples 0, known weight 2) the
step still overwrites all four scale factors — here with `0` (the `ℚ` value of
the unguarded division; the C float build produces NaN from `0/0.0` and feeds
it to `set_scale`), destroying the previous factors instead of aborting. -/
theorem calibComputing_zeroSum_unguarded :
    (calibrateComputing initialState 0 0 0 0 2).calibration_factor1 = 0 ∧
    (calibrateComputing initialState 0 0 0 0 2).calibration_factor2 = 0 ∧
    (calibrateComputing initialState 0 0 0 0 2).calibration_factor3 = 0 ∧
    (calibrateComputing initialState 0 0 0 0 2).calibration_factor4 = 0 ∧
    initialState.calibration_factor1 = -411979.59 ∧
    (-411979.59 : ℚ) ≠ 0 := by
  refine ⟨?_, ?_, ?_, ?_, rfl, by norm_num⟩ <;>
    · show (0 : ℚ) / (0 + 0 + 0 + 0) * 2 * 4 = 0
      norm_num

/-- Counterexample to claim C7: with the four raw samples equal to 4 and known
weight 2.0, calibration assigns each channel the factor 2.0, and a subsequent
averaged read of the same raw value 4 reports 4 / 2 = 2 kg, not 0.5 kg. -/
theorem calib_equalSamples_counterexample :
    (calibrateComputing initialState 4 4 4 4 2).calibration_factor1 = 2 ∧
    (calibrateComputing initialState 4 4 4 4 2).calibration_factor2 = 2 ∧
    (calibrateComputing initialState 4 4 4 4 2).calibration_factor3 = 2 ∧
    (calibrateComputing initialState 4 4 4 4 2).calibration_factor4 = 2 ∧
    get_units 4 2 = 2 ∧
    (2 : ℚ) ≠ 0.5 := by
  refine ⟨?_, ?_, ?_, ?_, ?_, by norm_num⟩
  · show (4 : ℚ) / (4 + 4 + 4 + 4) * 2 * 4 = 2
    norm_num
  · show (4 : ℚ) / (4 + 4 + 4 + 4) * 2 * 4 = 2
    norm_num
  · show (4 : ℚ) / (4 + 4 + 4 + 4) * 2 * 4 = 2
    norm_num
  · show (4 : ℚ) / (4 + 4 + 4 + 4) * 2 * 4 = 2
    norm_num
  · show (4 : ℚ) / 2 = 2
    norm_num

/-- Claim C7 as amended: for every positive raw value `r`, calibration with
all four samples `r` and known weight 2.0 yields four equal factors, each
2.0, and a subsequent averaged read of the same raw value reports `r / 2` kg
(0.5 kg exactly when `r = 1`). -/
theorem calib_equalSamples_amended (st : SystemState) (r : ℚ) (hr : 0 < r) :
    ((calibrateComputing st r r r r 2).calibration_factor1 = 2 ∧
     (calibrateComputing st r r r r 2).calibration_factor2 = 2 ∧
     (calibrateComputing st r r r r 2).calibration_factor3 = 2 ∧
     (calibrateComputing st r r r r 2).calibration_factor4 = 2) ∧
    get_units r 2 = r / 2 := by
  have hr' : r ≠ 0 := ne_of_gt hr
  refine ⟨⟨?_, ?_, ?_, ?_⟩, rfl⟩ <;>
    · show r / (r + r + r + r) * 2 * 4 = 2
      rw [show r + r + r + r = 4 * r by ring]
      rw [div_mul_eq_div_div_swap, div_self hr']
      norm_num

/-- Witness for the amended C7 at `r = 1`: factors 2.0 and a read of 0.5 kg. -/
theorem calib_equalSamples_amended_witness :
    (0 : ℚ) < 1 ∧
    (((calibrateComputing initialState 1 1 1 1 2).calibration_factor1 = 2 ∧
      (calibrateComputing initialState 1 1 1 1 2).calibration_factor2 = 2 ∧
      (calibrateComputing initialState 1 1 1 1 2).calibration_factor3 = 2 ∧
      (calibrateComputing initialState 1 1 1 1 2).calibration_factor4 = 2) ∧
     get_units 1 2 = 1 / 2) :=
  ⟨by norm_num, calib_equalSamples_amended initialState 1 (by norm_num)⟩

/-- The `cf,<value>` command never mutates the state (in either branch
`setCorrectionFactor` only prints). -/
theorem checkSerialCommands_cf_fst (st : SystemState) (value : ℚ) :
    (checkSerialCommands_cf st value).1 = st := by
  unfold checkSerialCommands_cf
  split <;> rfl

/-- Claim C9: a `cf,<value>` command with `value ≤ 0` (such as `cf,-1`) is
answered with the "Invalid correction factor" validation failure, and none of
the four channel scale factors changes. -/
theorem cf_nonpositive_rejected (st : SystemState) (value : ℚ) (h : value ≤ 0) :
    (checkSerialCommands_cf st value).2 = CfResponse.invalidFactor ∧
    (checkSerialCommands_cf st value).1.calibration_factor1 = st.calibration_factor1 ∧
    (checkSerialCommands_cf st value).1.calibration_factor2 = st.calibration_factor2 ∧
    (checkSerialCommands_cf st value).1.calibration_factor3 = st.calibration_factor3 ∧
    (checkSerialCommands_cf st value).1.calibration_factor4 = st.calibration_factor4 := by
  have hfst := checkSerialCommands_cf_fst st value
  refine ⟨?_, by rw [hfst], by rw [hfst], by rw [hfst], by rw [hfst]⟩
  unfold checkSerialCommands_cf
  rw [if_neg (not_lt.mpr h)]

/-- Witness for C9: the command `cf,-1` on the startup state. -/
theorem cf_nonpositive_rejected_witness :
    (-1 : ℚ) ≤ 0 ∧
    ((checkSerialCommands_cf initialState (-1)).2 = CfResponse.invalidFactor ∧
     (checkSerialCommands_cf initialState (-1)).1.calibration_factor1 =
       initialState.calibration_factor1 ∧
     (checkSerialCommands_cf initialState (-1)).1.calibration_factor2 =
       initialState.calibration_factor2 ∧
     (checkSerialCommands_cf initialState (-1)).1.calibration_factor3 =
       initialState.calibration_factor3 ∧
     (checkSerialCommands_cf initialState (-1)).1.calibration_factor4 =
       initialState.calibration_factor4) :=
  ⟨by norm_num, cf_nonpositive_rejected initialState (-1) (by norm_num)⟩

/-- The mean returned by `smoothValue` is the mean of the updated window. -/
theorem smoothValue_snd (v : ℚ) (s : Fin SMOOTHING_SAMPLES → ℚ)
    (i : Fin SMOOTHING_SAMPLES) :
    (smoothValue v s i).2 = (∑ j, Function.update s i v j) / 5 := by
  unfold smoothValue
  norm_num

/-- Claim C4: starting from a zero-filled window with the shared index
advanced once per cycle, after `k ≤ N` consecutive `smoothValue` updates with
the same value `V` the filter returns `k*V/N` — the unweighted mean over the
implicit zero slots — and in particular after exactly `N = 5` updates it
returns `V`. -/
theorem smoothing_window_mean (V : ℚ) (k : ℕ) (h1 : 1 ≤ k) (h2 : k ≤ 5) :
    smoothRunMean V k = k * V / 5 ∧ smoothRunMean V 5 = V := by
  have e0 : smoothRun V 0 = (fun _ => 0, 0) := rfl
  have e1 : smoothRun V 1 = (Function.update (fun _ => 0) 0 V, 1) := rfl
  have e2 : smoothRun V 2 =
      (Function.update (Function.update (fun _ => 0) 0 V) 1 V, 2) := rfl
  have e3 : smoothRun V 3 =
      (Function.update (Function.update (Function.update (fun _ => 0) 0 V) 1 V) 2 V, 3) := rfl
  have e4 : smoothRun V 4 =
      (Function.update (Function.update (Function.update (Function.update
        (fun _ => 0) 0 V) 1 V) 2 V) 3 V, 4) := rfl
  have m1 : smoothRunMean V 1 = 1 * V / 5 := by
    have h := smoothValue_snd V (smoothRun V 0).1 (smoothRun V 0).2
    rw [show smoothRunMean V 1 = (smoothValue V (smoothRun V 0).1 (smoothRun V 0).2).2
      from rfl, h, e0, Fin.sum_univ_five]
    simp [Function.update_apply]
  have m2 : smoothRunMean V 2 = 2 * V / 5 := by
    have h := smoothValue_snd V (smoothRun V 1).1 (smoothRun V 1).2
    rw [show smoothRunMean V 2 = (smoothValue V (smoothRun V 1).1 (smoothRun V 1).2).2
      from rfl, h, e1, Fin.sum_univ_five]
    simp [Function.update_apply]
    ring
  have m3 : smoothRunMean V 3 = 3 * V / 5 := by
    have h := smoothValue_snd V (smoothRun V 2).1 (smoothRun V 2).2
    rw [show smoothRunMean V 3 = (smoothValue V (smoothRun V 2).1 (smoothRun V 2).2).2
      from rfl, h, e2, Fin.sum_univ_five]
    simp [Function.update_apply]
    ring
  have m4 : smoothRunMean V 4 = 4 * V / 5 := by
    have h := smoothValue_snd V (smoothRun V 3).1 (smoothRun V 3).2
    rw [show smoothRunMean V 4 = (smoothValue V (smoothRun V 3).1 (smoothRun V 3).2).2
      from rfl, h, e3, Fin.sum_univ_five]
    simp [Function.update_apply]
    ring
  have m5 : smoothRunMean V 5 = 5 * V / 5 := by
    have h := smoothValue_snd V (smoothRun V 4).1 (smoothRun V 4).2
    rw [show smoothRunMean V 5 = (smoothValue V (smoothRun V 4).1 (smoothRun V 4).2).2
      from rfl, h, e4, Fin.sum_univ_five]
    simp [Function.update_apply]
    ring
  have m5v : smoothRunMean V 5 = V := by
    rw [m5]; ring
  interval_cases k
  · exact ⟨by push_cast; exact m1, m5v⟩
  · exact ⟨by push_cast; exact m2, m5v⟩
  · exact ⟨by push_cast; exact m3, m5v⟩
  · exact ⟨by push_cast; exact m4, m5v⟩
  · exact ⟨by push_cast; exact m5, m5v⟩

/-- Witness for C4 at `k = 5`, `V = 2`. -/
theorem smoothing_window_mean_witness :
    ((1 : ℕ) ≤ 5 ∧ (5 : ℕ) ≤ 5) ∧
    (smoothRunMean 2 5 = ((5 : ℕ) : ℚ) * 2 / 5 ∧ smoothRunMean 2 5 = 2) :=
  ⟨⟨by norm_num, by norm_num⟩, smoothing_window_mean 2 5 (by norm_num) (by norm_num)⟩

/-- A concrete test state: unit scale factors, zero-filled windows, index 0,
all measurement fields zero. -/
def unitState : SystemState :=
  { calibration_factor1 := 1
    calibration_factor2 := 1
    calibration_factor3 := 1
    calibration_factor4 := 1
    weight1Samples := fun _ => 0
    weight2Samples := fun _ => 0
    weight3Samples := fun _ => 0
    weight4Samples := fun _ => 0
    sampleIndex := 0
    totalWeight := 0
    cogX := 0
    cogY := 0
    wingCogX := 0
    lateralCogDiff := 0
    cogPercentage := 0 }

/-- Claim C3: in every cycle with total weight above 0.01 kg, stated over the
four channel weights `w1..w4` (LF, RF, LR, RR) computed by the cycle: equal
positive weights give lateral offset 0 and longitudinal CoG `BASE_LENGTH/2`;
zero rear weights give longitudinal CoG 0; zero front weights give
longitudinal CoG `BASE_LENGTH`. -/
theorem cog_geometry (st : SystemState) (r1 r2 r3 r4 w1 w2 w3 w4 : ℚ)
    (hw1 : cycleWeight CORRECTION_FACTOR st.calibration_factor1 st.weight1Samples st.sampleIndex r1 = w1)
    (hw2 : cycleWeight CORRECTION_FACTOR st.calibration_factor2 st.weight2Samples st.sampleIndex r2 = w2)
    (hw3 : cycleWeight CORRECTION_FACTOR st.calibration_factor3 st.weight3Samples st.sampleIndex r3 = w3)
    (hw4 : cycleWeight CORRECTION_FACTOR st.calibration_factor4 st.weight4Samples st.sampleIndex r4 = w4)
    (h : 0.01 < w1 + w2 + w3 + w4) :
    ((w1 = w2 ∧ w2 = w3 ∧ w3 = w4 ∧ 0 < w1) →
       (updateWeightData st r1 r2 r3 r4).lateralCogDiff = 0 ∧
       ((updateWeightData st r1 r2 r3 r4).cogY : ℚ) = BASE_LENGTH / 2) ∧
    ((w3 = 0 ∧ w4 = 0) → (updateWeightData st r1 r2 r3 r4).cogY = 0) ∧
    ((w1 = 0 ∧ w2 = 0) → ((updateWeightData st r1 r2 r3 r4).cogY : ℚ) = BASE_LENGTH) := by
  have htot : cycleTotalWeight CORRECTION_FACTOR st r1 r2 r3 r4 = w1 + w2 + w3 + w4 := by
    unfold cycleTotalWeight
    rw [hw1, hw2, hw3, hw4]
  have hpos : 0.01 < cycleTotalWeight CORRECTION_FACTOR st r1 r2 r3 r4 := by
    rw [htot]; exact h
  unfold updateWeightData
  rw [updateWeightDataGen_pos_eq CORRECTION_FACTOR BASE_WIDTH BASE_LENGTH WING_PEG_DIST
    st r1 r2 r3 r4 hpos]
  refine ⟨?_, ?_, ?_⟩
  · rintro ⟨h12, h23, h34, hw⟩
    subst h12; subst h23; subst h34
    constructor
    · show cycleLateralCogDiff CORRECTION_FACTOR BASE_WIDTH st r1 r2 r3 r4 = 0
      unfold cycleLateralCogDiff
      rw [htot, hw1, hw2, hw3, hw4]
      rw [show w1 * (-BASE_WIDTH / 2) + w1 * (BASE_WIDTH / 2) + w1 * (-BASE_WIDTH / 2) +
          w1 * (BASE_WIDTH / 2) = 0 from by ring, zero_div]
      unfold roundToMillimeter
      exact ardRound_eq_of_nonneg 0 0 le_rfl (by norm_num) (by norm_num)
    · show ((cycleCogY CORRECTION_FACTOR BASE_LENGTH st r1 r2 r3 r4 : ℤ) : ℚ) = BASE_LENGTH / 2
      unfold cycleCogY
      rw [htot, hw1, hw2, hw3, hw4]
      have h1 : w1 ≠ 0 := ne_of_gt hw
      rw [show (w1 * 0 + w1 * 0 + w1 * BASE_LENGTH + w1 * BASE_LENGTH) /
          (w1 + w1 + w1 + w1) = 125 from by field_simp [BASE_LENGTH]; ring]
      unfold roundToMillimeter
      rw [ardRound_eq_of_nonneg 125 125 (by norm_num) (by norm_num) (by norm_num)]
      norm_num [BASE_LENGTH]
  · rintro ⟨h3, h4⟩
    subst h3; subst h4
    show cycleCogY CORRECTION_FACTOR BASE_LENGTH st r1 r2 r3 r4 = 0
    unfold cycleCogY
    rw [htot, hw1, hw2, hw3, hw4]
    rw [show w1 * 0 + w2 * 0 + 0 * BASE_LENGTH + 0 * BASE_LENGTH = 0 from by ring, zero_div]
    unfold roundToMillimeter
    exact ardRound_eq_of_nonneg 0 0 le_rfl (by norm_num) (by norm_num)
  · rintro ⟨hz1, hz2⟩
    subst hz1; subst hz2
    show ((cycleCogY CORRECTION_FACTOR BASE_LENGTH st r1 r2 r3 r4 : ℤ) : ℚ) = BASE_LENGTH
    unfold cycleCogY
    rw [htot, hw1, hw2, hw3, hw4]
    have hd : (0 : ℚ) + 0 + w3 + w4 ≠ 0 := by
      have : (0 : ℚ) < 0 + 0 + w3 + w4 := lt_trans (by norm_num) h
      exact ne_of_gt this
    rw [show (0 * 0 + 0 * 0 + w3 * BASE_LENGTH + w4 * BASE_LENGTH) / (0 + 0 + w3 + w4) =
        250 from by rw [div_eq_iff hd]; unfold BASE_LENGTH; ring]
    unfold roundToMillimeter
    rw [ardRound_eq_of_nonneg 250 250 (by norm_num) (by norm_num) (by norm_num)]
    norm_num [BASE_LENGTH]

/-- Witness for C3: unit factors, zero windows, reading 1 on every channel
gives four equal channel weights of 0.94 kg with total 3.76 kg. -/
theorem cog_geometry_witness :
    cycleWeight CORRECTION_FACTOR unitState.calibration_factor1 unitState.weight1Samples
      unitState.sampleIndex 1 = 94/100 ∧
    cycleWeight CORRECTION_FACTOR unitState.calibration_factor2 unitState.weight2Samples
      unitState.sampleIndex 1 = 94/100 ∧
    cycleWeight CORRECTION_FACTOR unitState.calibration_factor3 unitState.weight3Samples
      unitState.sampleIndex 1 = 94/100 ∧
    cycleWeight CORRECTION_FACTOR unitState.calibration_factor4 unitState.weight4Samples
      unitState.sampleIndex 1 = 94/100 ∧
    ((0.01 : ℚ) < 94/100 + 94/100 + 94/100 + 94/100) ∧
    ((((94/100 : ℚ) = 94/100 ∧ (94/100 : ℚ) = 94/100 ∧ (94/100 : ℚ) = 94/100 ∧
        (0 : ℚ) < 94/100) →
       (updateWeightData unitState 1 1 1 1).lateralCogDiff = 0 ∧
       ((updateWeightData unitState 1 1 1 1).cogY : ℚ) = BASE_LENGTH / 2) ∧
     (((94/100 : ℚ) = 0 ∧ (94/100 : ℚ) = 0) →
       (updateWeightData unitState 1 1 1 1).cogY = 0) ∧
     (((94/100 : ℚ) = 0 ∧ (94/100 : ℚ) = 0) →
       ((updateWeightData unitState 1 1 1 1).cogY : ℚ) = BASE_LENGTH)) :=
  ⟨cycleWeight_one_eval 0, cycleWeight_one_eval 0, cycleWeight_one_eval 0,
   cycleWeight_one_eval 0, by norm_num,
   cog_geometry unitState 1 1 1 1 (94/100) (94/100) (94/100) (94/100)
     (cycleWeight_one_eval 0) (cycleWeight_one_eval 0) (cycleWeight_one_eval 0)
     (cycleWeight_one_eval 0) (by norm_num)⟩

/-- The cycle total for `unitState` with reading 1 on every channel. -/
theorem cycleTotalWeight_unit :
    cycleTotalWeight CORRECTION_FACTOR unitState 1 1 1 1 = 376/100 := by
  unfold cycleTotalWeight
  rw [show cycleWeight CORRECTION_FACTOR unitState.calibration_factor1 unitState.weight1Samples
      unitState.sampleIndex 1 = 94/100 from cycleWeight_one_eval 0]
  rw [show cycleWeight CORRECTION_FACTOR unitState.calibration_factor2 unitState.weight2Samples
      unitState.sampleIndex 1 = 94/100 from cycleWeight_one_eval 0]
  rw [show cycleWeight CORRECTION_FACTOR unitState.calibration_factor3 unitState.weight3Samples
      unitState.sampleIndex 1 = 94/100 from cycleWeight_one_eval 0]
  rw [show cycleWeight CORRECTION_FACTOR unitState.calibration_factor4 unitState.weight4Samples
      unitState.sampleIndex 1 = 94/100 from cycleWeight_one_eval 0]
  norm_num

/-- Claim C8 as amended: in every sufficient-load cycle, a positive configured
wing-peg span gives `cogPercentage = round(wingCogX / span * 100)`; a zero or
negative span skips the assignment, so the percentage keeps its prior value
(it is not reset to a sentinel). -/
theorem wingPct_behavior (CF BW BL W : ℚ) (st : SystemState) (r1 r2 r3 r4 : ℚ)
    (h : 0.01 < (updateWeightDataGen CF BW BL W st r1 r2 r3 r4).totalWeight) :
    (0 < W → (updateWeightDataGen CF BW BL W st r1 r2 r3 r4).cogPercentage =
       ardRound (((updateWeightDataGen CF BW BL W st r1 r2 r3 r4).wingCogX : ℚ) / W * 100)) ∧
    (W ≤ 0 → (updateWeightDataGen CF BW BL W st r1 r2 r3 r4).cogPercentage =
       st.cogPercentage) := by
  rw [updateWeightDataGen_totalWeight] at h
  rw [updateWeightDataGen_pos_eq CF BW BL W st r1 r2 r3 r4 h]
  constructor
  · intro hW
    show (if 0 < W then ardRound ((cycleCogY CF BL st r1 r2 r3 r4 : ℚ) / W * 100)
        else st.cogPercentage) =
      ardRound ((cycleCogY CF BL st r1 r2 r3 r4 : ℚ) / W * 100)
    rw [if_pos hW]
  · intro hW
    show (if 0 < W then ardRound ((cycleCogY CF BL st r1 r2 r3 r4 : ℚ) / W * 100)
        else st.cogPercentage) = st.cogPercentage
    rw [if_neg (not_lt.mpr hW)]

/-- Witness for the amended C8 at the sketch's configuration. -/
theorem wingPct_behavior_witness :
    (0.01 : ℚ) < (updateWeightDataGen CORRECTION_FACTOR BASE_WIDTH BASE_LENGTH WING_PEG_DIST
      unitState 1 1 1 1).totalWeight ∧
    ((0 < WING_PEG_DIST →
       (updateWeightDataGen CORRECTION_FACTOR BASE_WIDTH BASE_LENGTH WING_PEG_DIST
         unitState 1 1 1 1).cogPercentage =
       ardRound (((updateWeightDataGen CORRECTION_FACTOR BASE_WIDTH BASE_LENGTH WING_PEG_DIST
         unitState 1 1 1 1).wingCogX : ℚ) / WING_PEG_DIST * 100)) ∧
     (WING_PEG_DIST ≤ 0 →
       (updateWeightDataGen CORRECTION_FACTOR BASE_WIDTH BASE_LENGTH WING_PEG_DIST
         unitState 1 1 1 1).cogPercentage = unitState.cogPercentage)) := by
  have htot : (0.01 : ℚ) < (updateWeightDataGen CORRECTION_FACTOR BASE_WIDTH BASE_LENGTH
      WING_PEG_DIST unitState 1 1 1 1).totalWeight := by
    rw [updateWeightDataGen_totalWeight, cycleTotalWeight_unit]
    norm_num
  exact ⟨htot, wingPct_behavior CORRECTION_FACTOR BASE_WIDTH BASE_LENGTH WING_PEG_DIST
    unitState 1 1 1 1 htot⟩

/-- The state `unitState` with a stale prior CoG percentage of 7. -/
def stalePctState : SystemState :=
  { unitState with cogPercentage := 7 }

/-- The cycle total for `stalePctState` with reading 1 on every channel. -/
theorem cycleTotalWeight_stalePct :
    cycleTotalWeight CORRECTION_FACTOR stalePctState 1 1 1 1 = 376/100 := by
  unfold cycleTotalWeight
  rw [show cycleWeight CORRECTION_FACTOR stalePctState.calibration_factor1
      stalePctState.weight1Samples stalePctState.sampleIndex 1 = 94/100 from
      cycleWeight_one_eval 0]
  rw [show cycleWeight CORRECTION_FACTOR stalePctState.calibration_factor2
      stalePctState.weight2Samples stalePctState.sampleIndex 1 = 94/100 from
      cycleWeight_one_eval 0]
  rw [show cycleWeight CORRECTION_FACTOR stalePctState.calibration_factor3
      stalePctState.weight3Samples stalePctState.sampleIndex 1 = 94/100 from
      cycleWeight_one_eval 0]
  rw [show cycleWeight CORRECTION_FACTOR stalePctState.calibration_factor4
      stalePctState.weight4Samples stalePctState.sampleIndex 1 = 94/100 from
      cycleWeight_one_eval 0]
  norm_num

/-- Counterexample to claim C8 as stated: with a zero configured span, a
sufficient-load cycle (total 3.76 kg) leaves the prior percentage 7 in place
rather than resetting it to a zero/sentinel value. -/
theorem wingPct_counterexample :
    (updateWeightDataGen CORRECTION_FACTOR BASE_WIDTH BASE_LENGTH 0
      stalePctState 1 1 1 1).totalWeight = 376/100 ∧
    (0.01 : ℚ) < 376/100 ∧
    (updateWeightDataGen CORRECTION_FACTOR BASE_WIDTH BASE_LENGTH 0
      stalePctState 1 1 1 1).cogPercentage = 7 ∧
    (7 : ℤ) ≠ 0 := by
  have hpos : 0.01 < cycleTotalWeight CORRECTION_FACTOR stalePctState 1 1 1 1 := by
    rw [cycleTotalWeight_stalePct]; norm_num
  refine ⟨?_, by norm_num, ?_, by norm_num⟩
  · rw [updateWeightDataGen_totalWeight, cycleTotalWeight_stalePct]
  · rw [updateWeightDataGen_pos_eq CORRECTION_FACTOR BASE_WIDTH BASE_LENGTH 0
      stalePctState 1 1 1 1 hpos]
    show (if (0 : ℚ) < 0 then
        ardRound ((cycleCogY CORRECTION_FACTOR BASE_LENGTH stalePctState 1 1 1 1 : ℚ) / 0 * 100)
      else stalePctState.cogPercentage) = 7
    rw [if_neg (by norm_num)]
    rfl

/-- The claim-C6 scenario state: prior scale factors 1000 on every channel,
zero-filled smoothing windows (the state right after startup or tare). -/
def c6State : SystemState :=
  { calibration_factor1 := 1000
    calibration_factor2 := 1000
    calibration_factor3 := 1000
    calibration_factor4 := 1000
    weight1Samples := fun _ => 0
    weight2Samples := fun _ => 0
    weight3Samples := fun _ => 0
    weight4Samples := fun _ => 0
    sampleIndex := 0
    totalWeight := 0
    cogX := 0
    cogY := 0
    wingCogX := 0
    lateralCogDiff := 0
    cogPercentage := 0 }

/-- The claim-C6 scenario state with warmed windows: every slot already holds
the corrected value 100 kg (steady state after ≥ 5 identical cycles). -/
def c6WarmState : SystemState :=
  { calibration_factor1 := 1000
    calibration_factor2 := 1000
    calibration_factor3 := 1000
    calibration_factor4 := 1000
    weight1Samples := fun _ => 100
    weight2Samples := fun _ => 100
    weight3Samples := fun _ => 100
    weight4Samples := fun _ => 100
    sampleIndex := 0
    totalWeight := 0
    cogX := 0
    cogY := 0
    wingCogX := 0
    lateralCogDiff := 0
    cogPercentage := 0 }

/-- Channel weight at reading 100000 counts, factor 1000, correction 1.0,
zero-filled window: 20 kg (the 1/5-filled transient). -/
theorem cycleWeight_c6_cold (idx : Fin SMOOTHING_SAMPLES) :
    cycleWeight 1 1000 (fun _ => 0) idx 100000 = 20 := by
  rw [cycleWeight_const]
  unfold roundWeightToDecagram
  rw [ardRound_eq_of_nonneg ((100000 / 1000 * 1 + 4 * 0) / 5 * 100) 2000
    (by norm_num) (by norm_num) (by norm_num)]
  norm_num

/-- Channel weight at reading 100000 counts, factor 1000, correction 1.0,
warmed window: 100 kg. -/
theorem cycleWeight_c6_warm (idx : Fin SMOOTHING_SAMPLES) :
    cycleWeight 1 1000 (fun _ => 100) idx 100000 = 100 := by
  rw [cycleWeight_const]
  unfold roundWeightToDecagram
  rw [ardRound_eq_of_nonneg ((100000 / 1000 * 1 + 4 * 100) / 5 * 100) 10000
    (by norm_num) (by norm_num) (by norm_num)]
  norm_num

/-- The cycle total for `c6State` with reading 100000 on every channel. -/
theorem cycleTotalWeight_c6_cold :
    cycleTotalWeight 1 c6State 100000 100000 100000 100000 = 80 := by
  unfold cycleTotalWeight
  rw [show cycleWeight 1 c6State.calibration_factor1 c6State.weight1Samples
      c6State.sampleIndex 100000 = 20 from cycleWeight_c6_cold 0]
  rw [show cycleWeight 1 c6State.calibration_factor2 c6State.weight2Samples
      c6State.sampleIndex 100000 = 20 from cycleWeight_c6_cold 0]
  rw [show cycleWeight 1 c6State.calibration_factor3 c6State.weight3Samples
      c6State.sampleIndex 100000 = 20 from cycleWeight_c6_cold 0]
  rw [show cycleWeight 1 c6State.calibration_factor4 c6State.weight4Samples
      c6State.sampleIndex 100000 = 20 from cycleWeight_c6_cold 0]
  norm_num

/-- The cycle total for `c6WarmState` with reading 100000 on every channel. -/
theorem cycleTotalWeight_c6_warm :
    cycleTotalWeight 1 c6WarmState 100000 100000 100000 100000 = 400 := by
  unfold cycleTotalWeight
  rw [show cycleWeight 1 c6WarmState.calibration_factor1 c6WarmState.weight1Samples
      c6WarmState.sampleIndex 100000 = 100 from cycleWeight_c6_warm 0]
  rw [show cycleWeight 1 c6WarmState.calibration_factor2 c6WarmState.weight2Samples
      c6WarmState.sampleIndex 100000 = 100 from cycleWeight_c6_warm 0]
  rw [show cycleWeight 1 c6WarmState.calibration_factor3 c6WarmState.weight3Samples
      c6WarmState.sampleIndex 100000 = 100 from cycleWeight_c6_warm 0]
  rw [show cycleWeight 1 c6WarmState.calibration_factor4 c6WarmState.weight4Samples
      c6WarmState.sampleIndex 100000 = 100 from cycleWeight_c6_warm 0]
  norm_num

/-- Counterexample to claim C6 as stated: at raw reads 100000 counts, scale
factors 1000, correction multiplier 1.0, the per-channel weight is 100 kg
(steady-state windows) or 20 kg (zero-filled windows) — never 0.10 kg — and
the cycle total is 400 kg or 80 kg, never 0.40 kg. -/
theorem exampleEndToEnd_counterexample :
    cycleWeight 1 c6State.calibration_factor1 c6State.weight1Samples
      c6State.sampleIndex 100000 = 20 ∧
    (updateWeightDataGen 1 270 250 120 c6State 100000 100000 100000 100000).totalWeight = 80 ∧
    cycleWeight 1 c6WarmState.calibration_factor1 c6WarmState.weight1Samples
      c6WarmState.sampleIndex 100000 = 100 ∧
    (updateWeightDataGen 1 270 250 120 c6WarmState 100000 100000 100000 100000).totalWeight =
      400 ∧
    (20 : ℚ) ≠ 0.10 ∧ (100 : ℚ) ≠ 0.10 ∧ (80 : ℚ) ≠ 0.40 ∧ (400 : ℚ) ≠ 0.40 := by
  refine ⟨cycleWeight_c6_cold 0, ?_, cycleWeight_c6_warm 0, ?_,
    by norm_num, by norm_num, by norm_num, by norm_num⟩
  · rw [updateWeightDataGen_totalWeight, cycleTotalWeight_c6_cold]
  · rw [updateWeightDataGen_totalWeight, cycleTotalWeight_c6_warm]

/-- Claim C6 as amended: with the smoothing windows already holding the
corrected value (steady state), raw reads 100000 counts, scale factors 1000,
correction multiplier 1.0, base width 270, base length 250 give per-channel
weight 100 kg each, total 400 kg, lateral offset 0 mm and longitudinal CoG
125 mm. -/
theorem exampleEndToEnd_amended :
    cycleWeight 1 c6WarmState.calibration_factor1 c6WarmState.weight1Samples
      c6WarmState.sampleIndex 100000 = 100 ∧
    cycleWeight 1 c6WarmState.calibration_factor2 c6WarmState.weight2Samples
      c6WarmState.sampleIndex 100000 = 100 ∧
    cycleWeight 1 c6WarmState.calibration_factor3 c6WarmState.weight3Samples
      c6WarmState.sampleIndex 100000 = 100 ∧
    cycleWeight 1 c6WarmState.calibration_factor4 c6WarmState.weight4Samples
      c6WarmState.sampleIndex 100000 = 100 ∧
    (updateWeightDataGen 1 270 250 120 c6WarmState 100000 100000 100000 100000).totalWeight =
      400 ∧
    (updateWeightDataGen 1 270 250 120 c6WarmState 100000 100000 100000 100000).lateralCogDiff =
      0 ∧
    (updateWeightDataGen 1 270 250 120 c6WarmState 100000 100000 100000 100000).cogY = 125 := by
  have hpos : (0.01 : ℚ) < cycleTotalWeight 1 c6WarmState 100000 100000 100000 100000 := by
    rw [cycleTotalWeight_c6_warm]; norm_num
  refine ⟨cycleWeight_c6_warm 0, cycleWeight_c6_warm 0, cycleWeight_c6_warm 0,
    cycleWeight_c6_warm 0, ?_, ?_, ?_⟩
  · rw [updateWeightDataGen_totalWeight, cycleTotalWeight_c6_warm]
  · rw [updateWeightDataGen_pos_eq 1 270 250 120 c6WarmState 100000 100000 100000 100000 hpos]
    show cycleLateralCogDiff 1 270 c6WarmState 100000 100000 100000 100000 = 0
    unfold cycleLateralCogDiff
    rw [cycleTotalWeight_c6_warm]
    rw [show cycleWeight 1 c6WarmState.calibration_factor1 c6WarmState.weight1Samples
        c6WarmState.sampleIndex 100000 = 100 from cycleWeight_c6_warm 0]
    rw [show cycleWeight 1 c6WarmState.calibration_factor2 c6WarmState.weight2Samples
        c6WarmState.sampleIndex 100000 = 100 from cycleWeight_c6_warm 0]
    rw [show cycleWeight 1 c6WarmState.calibration_factor3 c6WarmState.weight3Samples
        c6WarmState.sampleIndex 100000 = 100 from cycleWeight_c6_warm 0]
    rw [show cycleWeight 1 c6WarmState.calibration_factor4 c6WarmState.weight4Samples
        c6WarmState.sampleIndex 100000 = 100 from cycleWeight_c6_warm 0]
    rw [show (100 : ℚ) * (-(270 : ℚ) / 2) + 100 * ((270 : ℚ) / 2) + 100 * (-(270 : ℚ) / 2) +
        100 * ((270 : ℚ) / 2) = 0 from by ring, zero_div]
    unfold roundToMillimeter
    exact ardRound_eq_of_nonneg 0 0 le_rfl (by norm_num) (by norm_num)
  · rw [updateWeightDataGen_pos_eq 1 270 250 120 c6WarmState 100000 100000 100000 100000 hpos]
    show cycleCogY 1 250 c6WarmState 100000 100000 100000 100000 = 125
    unfold cycleCogY
    rw [cycleTotalWeight_c6_warm]
    rw [show cycleWeight 1 c6WarmState.calibration_factor1 c6WarmState.weight1Samples
        c6WarmState.sampleIndex 100000 = 100 from cycleWeight_c6_warm 0]
    rw [show cycleWeight 1 c6WarmState.calibration_factor2 c6WarmState.weight2Samples
        c6WarmState.sampleIndex 100000 = 100 from cycleWeight_c6_warm 0]
    rw [show cycleWeight 1 c6WarmState.calibration_factor3 c6WarmState.weight3Samples
        c6WarmState.sampleIndex 100000 = 100 from cycleWeight_c6_warm 0]
    rw [show cycleWeight 1 c6WarmState.calibration_factor4 c6WarmState.weight4Samples
        c6WarmState.sampleIndex 100000 = 100 from cycleWeight_c6_warm 0]
    rw [show ((100 : ℚ) * 0 + 100 * 0 + 100 * 250 + 100 * 250) / 400 = 125 from by norm_num]
    unfold roundToMillimeter
    exact ardRound_eq_of_nonneg 125 125 (by norm_num) (by norm_num) (by norm_num)

/-- A cycle preserves `cogX = 0`: the sufficient-load branch never writes
`cogX`, and the insufficient-load branch resets it to 0. -/
theorem updateWeightDataGen_cogX_zero (CF BW BL W : ℚ) (st : SystemState)
    (r1 r2 r3 r4 : ℚ) (h : st.cogX = 0) :
    (updateWeightDataGen CF BW BL W st r1 r2 r3 r4).cogX = 0 := by
  rcases lt_or_le (0.01 : ℚ) (cycleTotalWeight CF st r1 r2 r3 r4) with hc | hc
  · rw [updateWeightDataGen_pos_eq CF BW BL W st r1 r2 r3 r4 hc]
    exact h
  · rw [updateWeightDataGen_neg_eq CF BW BL W st r1 r2 r3 r4 hc]

/-- The `c<n>,<value>` command never touches `cogX`. -/
theorem checkSerialCommands_cellCal_cogX (st : SystemState) (cellNumber : ℕ) (value : ℚ) :
    (checkSerialCommands_cellCal st cellNumber value).1.cogX = st.cogX := by
  unfold checkSerialCommands_cellCal
  split
  · split
    · split <;> rfl
    · rfl
  · rfl

/-- Claim C10: the global `cogX` — printed in every measurement report as
"CG X ... mm from left" — is invariantly zero in every reachable state: no
operation of the sketch ever assigns it a nonzero value, so every serial
report shows CG X = 0 regardless of the load distribution. -/
theorem cogX_always_zero (st : SystemState) (h : Reachable st) :
    st.cogX = 0 ∧ (printSerialData st).cgX = 0 := by
  have hz : st.cogX = 0 := by
    induction h with
    | init => rfl
    | step hr hstep ih =>
      cases hstep with
      | update r1 r2 r3 r4 =>
        exact updateWeightDataGen_cogX_zero CORRECTION_FACTOR BASE_WIDTH BASE_LENGTH
          WING_PEG_DIST _ r1 r2 r3 r4 ih
      | updateView r1 r2 r3 r4 =>
        exact updateWeightDataGen_cogX_zero CORRECTION_FACTOR BASE_WIDTH BASE_LENGTH
          WING_PEG_DIST _ r1 r2 r3 r4 ih
      | tare => exact ih
      | calibrate raw1 raw2 raw3 raw4 knownWeight => exact ih
      | cellCal cellNumber value =>
        rw [checkSerialCommands_cellCal_cogX]
        exact ih
      | cf value =>
        rw [checkSerialCommands_cf_fst]
        exact ih
  exact ⟨hz, hz⟩

/-- Witness for C10 on a concrete reachable state (one loop cycle after
startup, readings 5 on every channel). -/
theorem cogX_always_zero_witness :
    (loopCycle initialState 5 5 5 5).cogX = 0 ∧
    (printSerialData (loopCycle initialState 5 5 5 5)).cgX = 0 :=
  cogX_always_zero (loopCycle initialState 5 5 5 5)
    (Reachable.step Reachable.init (Step.update initialState 5 5 5 5))

end CoGScale
